import Mathlib

/-!
Verification of the SolveSpace platform GUI abstraction layer
(`src/platform/gui.h`, `src/platform/guigtk.cpp`, `src/platform/guiwin.cpp`).

The two backend adapters (GTK and Win32) are embedded shallowly: each
relevant member function becomes a Lean function over explicit state.
Host-toolkit behavior that the adapters rely on (GDK keyval tables,
Win32 `SetTimer` replacement semantics, `SetScrollInfo` clamping,
`GtkAdjustment` clamping and signal emission) is modelled from the hosts'
documented semantics and marked as such in the doc comments.
Machine `double` values that the scrollbar contract exchanges are modelled
as rationals; every value appearing in the claims is exactly representable
in binary64, so the rational model is exact on them.
-/

namespace SSGui

/-! ## Event model (`gui.h`) -/

/-- `KeyboardEvent::Type` from `gui.h`. -/
inductive KeyType where
  | PRESS
  | RELEASE
deriving DecidableEq, Repr

/-- `KeyboardEvent::Key` from `gui.h`. -/
inductive KeyKind where
  | CHARACTER
  | FUNCTION
deriving DecidableEq, Repr

/-- `KeyboardEvent` from `gui.h`.  The C union of `chr : char32_t` and
`num : int` is modelled by the single field `chrOrNum` (both members
are nonnegative in every code path of the adapters). -/
structure KeyboardEvent where
  type        : KeyType
  key         : KeyKind
  chrOrNum    : Nat
  shiftDown   : Bool
  controlDown : Bool
deriving DecidableEq, Repr

/-- `MouseEvent::Type` from `gui.h`. -/
inductive MouseType where
  | MOTION
  | PRESS
  | DBL_PRESS
  | RELEASE
  | SCROLL_VERT
  | LEAVE
deriving DecidableEq, Repr

/-- `MouseEvent::Button` from `gui.h`. -/
inductive MouseButton where
  | NONE
  | LEFT
  | MIDDLE
  | RIGHT
deriving DecidableEq, Repr

/-- `MouseEvent` from `gui.h`; window coordinates are modelled as rationals. -/
structure MouseEvent where
  type        : MouseType
  x           : ℚ
  y           : ℚ
  button      : MouseButton
  shiftDown   : Bool
  controlDown : Bool
  scrollDelta : ℤ
deriving DecidableEq, Repr

/-! ## GDK constants and host keyval functions (GTK backend environment) -/

/-- `GDK_SHIFT_MASK` (bit 0 of a GDK modifier state). -/
def GDK_SHIFT_MASK : Nat := 1

/-- `GDK_CONTROL_MASK` (bit 2 of a GDK modifier state). -/
def GDK_CONTROL_MASK : Nat := 4

/-- `GDK_BUTTON1_MASK` (bit 8 of a GDK modifier state). -/
def GDK_BUTTON1_MASK : Nat := 256

/-- `GDK_BUTTON2_MASK` (bit 9 of a GDK modifier state). -/
def GDK_BUTTON2_MASK : Nat := 512

/-- `GDK_BUTTON3_MASK` (bit 10 of a GDK modifier state). -/
def GDK_BUTTON3_MASK : Nat := 1024

/-- The 32-bit complement `~(GDK_SHIFT_MASK|GDK_CONTROL_MASK)` computed on a
`guint`, as used in `GtkGLWidget::process_key_event`. -/
def GDK_NON_SHIFT_CTRL_MASK : Nat := 0xFFFFFFFA

/-- `GDK_KEY_F1` (0xFFBE). -/
def GDK_KEY_F1 : Nat := 0xFFBE

/-- `GDK_KEY_F12` (0xFFC9). -/
def GDK_KEY_F12 : Nat := 0xFFC9

/-- Modelled host function `gdk_keyval_to_lower`: on the keyvals exercised
here (printable ASCII and function keys) it lower-cases the Latin letters
and leaves everything else unchanged. -/
def gdk_keyval_to_lower (kv : Nat) : Nat :=
  if 0x41 ≤ kv ∧ kv ≤ 0x5A then kv + 32 else kv

/-- Modelled host function `gdk_keyval_to_unicode`: printable-ASCII keyvals
are their own Unicode codepoint; the function-key keyvals (and other
0xFFxx keyvals) have no Unicode equivalent and map to 0. -/
def gdk_keyval_to_unicode (kv : Nat) : Nat :=
  if 0x20 ≤ kv ∧ kv ≤ 0x7E then kv else 0

/-- The fields of `GdkEventKey` that `process_key_event` reads:
the 32-bit modifier `state` and the `keyval`. -/
structure GdkEventKey where
  state  : Nat
  keyval : Nat
deriving DecidableEq, Repr

/-- Result of dispatching one native keyboard event: the normalized
`KeyboardEvent` passed to the keyboard handler (if any was produced), and
whether the adapter reports the native event handled. -/
structure GtkKeyDispatch where
  event   : Option KeyboardEvent
  handled : Bool
deriving DecidableEq, Repr

/-- `GtkGLWidget::process_key_event` from `guigtk.cpp`.  `handler` stands for
`SS.GW.KeyboardEvent`, the application's global keyboard handler that the
GTK adapter invokes directly (it does not go through the window's
`onKeyboardEvent` slot).  Returning `handled = false` lets GTK's default
handling proceed. -/
def process_key_event (handler : KeyboardEvent → Bool) (type : KeyType)
    (e : GdkEventKey) : GtkKeyDispatch :=
  if e.state &&& GDK_NON_SHIFT_CTRL_MASK ≠ 0 then
    { event := none, handled := false }
  else
    let shift := e.state &&& GDK_SHIFT_MASK ≠ 0
    let ctrl  := e.state &&& GDK_CONTROL_MASK ≠ 0
    let chr := gdk_keyval_to_unicode (gdk_keyval_to_lower e.keyval)
    if chr ≠ 0 then
      let ev : KeyboardEvent :=
        { type := type, key := KeyKind.CHARACTER, chrOrNum := chr,
          shiftDown := shift, controlDown := ctrl }
      { event := some ev, handled := handler ev }
    else if GDK_KEY_F1 ≤ e.keyval ∧ e.keyval ≤ GDK_KEY_F12 then
      let ev : KeyboardEvent :=
        { type := type, key := KeyKind.FUNCTION, chrOrNum := e.keyval - GDK_KEY_F1 + 1,
          shiftDown := shift, controlDown := ctrl }
      { event := some ev, handled := handler ev }
    else
      { event := none, handled := false }

/-! ## Win32 keyboard path (`WindowImplWin32::WndProc`, WM_KEYDOWN/WM_KEYUP) -/

/-- `VK_F1`. -/
def VK_F1 : Nat := 0x70

/-- `VK_F12`. -/
def VK_F12 : Nat := 0x7B

/-- `VK_DELETE`. -/
def VK_DELETE : Nat := 0x2E

/-- `VK_OEM_PERIOD`, the '.' key on a US layout. -/
def VK_OEM_PERIOD : Nat := 0xBE

/-- Modelled host function `MapVirtualKeyW(vk, MAPVK_VK_TO_CHAR)` on the
virtual keys exercised here: digit and letter keys map to their (uppercase)
character code, `VK_OEM_PERIOD` maps to '.', `VK_SPACE` to ' ', and keys
with no character equivalent (including `VK_DELETE`) map to 0. -/
def MapVirtualKeyChar (vk : Nat) : Nat :=
  if 0x30 ≤ vk ∧ vk ≤ 0x39 then vk
  else if 0x41 ≤ vk ∧ vk ≤ 0x5A then vk
  else if vk = VK_OEM_PERIOD then 46
  else if vk = 0x20 then 32
  else 0

/-- Modelled host function `tolower` on the character codes above. -/
def c_tolower (c : Nat) : Nat :=
  if 0x41 ≤ c ∧ c ≤ 0x5A then c + 32 else c

/-- The native keyboard input that the WM_KEYDOWN/WM_KEYUP branch of
`WindowImplWin32::WndProc` observes: the message kind, the virtual-key code
`wParam`, and the keyboard state.  `shiftHeld` and `controlHeld` model
`GetKeyState(VK_SHIFT)`/`GetKeyState(VK_CONTROL)`; `otherModifierHeld`
models any further held modifier (for example the Windows key, delivered
with a plain WM_KEYDOWN) — the source never queries it. -/
structure Win32KeyMsg where
  down              : Bool
  wParam            : Nat
  shiftHeld         : Bool
  controlHeld       : Bool
  otherModifierHeld : Bool
deriving DecidableEq, Repr

/-- Result of the Win32 keyboard branch: the normalized event (if one was
produced), the boolean the registered `onKeyboardEvent` callback returned
(if it was invoked), and whether the message is reported handled — the
branch falls through to `return 1` on every path, so `handled` is the
message being claimed by the window procedure. -/
structure Win32KeyDispatch where
  event          : Option KeyboardEvent
  callbackResult : Option Bool
  handled        : Bool
deriving DecidableEq, Repr

/-- The WM_KEYDOWN/WM_KEYUP branch of `WindowImplWin32::WndProc` from
`guiwin.cpp`, with the registered `onKeyboardEvent` callback `cb`.
Note that the value returned by `cb` is discarded by the source: the
branch always ends in `break` and the procedure returns 1. -/
def WndProcKey (cb : KeyboardEvent → Bool) (m : Win32KeyMsg) : Win32KeyDispatch :=
  let type := if m.down then KeyType.PRESS else KeyType.RELEASE
  if VK_F1 ≤ m.wParam ∧ m.wParam ≤ VK_F12 then
    let ev : KeyboardEvent :=
      { type := type, key := KeyKind.FUNCTION, chrOrNum := m.wParam - VK_F1 + 1,
        shiftDown := m.shiftHeld, controlDown := m.controlHeld }
    { event := some ev, callbackResult := some (cb ev), handled := true }
  else
    let chr := c_tolower (MapVirtualKeyChar m.wParam)
    if chr = 0 then
      if m.wParam = VK_DELETE then
        let ev : KeyboardEvent :=
          { type := type, key := KeyKind.CHARACTER, chrOrNum := 0x7F,
            shiftDown := m.shiftHeld, controlDown := m.controlHeld }
        { event := some ev, callbackResult := some (cb ev), handled := true }
      else
        -- Non-mappable key: `break`, still `return 1`.
        { event := none, callbackResult := none, handled := true }
    else if chr = 46 ∧ m.shiftHeld then
      -- '.' with Shift is rewritten to '>' with shiftDown cleared.
      let ev : KeyboardEvent :=
        { type := type, key := KeyKind.CHARACTER, chrOrNum := 62,
          shiftDown := false, controlDown := m.controlHeld }
      { event := some ev, callbackResult := some (cb ev), handled := true }
    else
      let ev : KeyboardEvent :=
        { type := type, key := KeyKind.CHARACTER, chrOrNum := chr,
          shiftDown := m.shiftHeld, controlDown := m.controlHeld }
      { event := some ev, callbackResult := some (cb ev), handled := true }

/-! ## Pointer events -/

/-- `GtkGLWidget::process_pointer_event` from `guigtk.cpp` (the event
construction; the dispatch to `onMouseEvent` is the returned value's
consumer).  `button` is the explicit GDK button index (1/2/3) for
press/release events and 0 when absent (motion, scroll, leave);
`state` is the GDK modifier/held-button mask. -/
def process_pointer_event (type : MouseType) (x y : ℚ) (state : Nat)
    (button : Nat) (scroll_delta : ℤ) : MouseEvent :=
  { type := type, x := x, y := y,
    button :=
      if button = 1 ∨ state &&& GDK_BUTTON1_MASK ≠ 0 then MouseButton.LEFT
      else if button = 2 ∨ state &&& GDK_BUTTON2_MASK ≠ 0 then MouseButton.MIDDLE
      else if button = 3 ∨ state &&& GDK_BUTTON3_MASK ≠ 0 then MouseButton.RIGHT
      else MouseButton.NONE,
    shiftDown   := state &&& GDK_SHIFT_MASK ≠ 0,
    controlDown := state &&& GDK_CONTROL_MASK ≠ 0,
    scrollDelta := scroll_delta }

/-- `MK_LBUTTON`. -/
def MK_LBUTTON : Nat := 0x1

/-- `MK_RBUTTON`. -/
def MK_RBUTTON : Nat := 0x2

/-- `MK_SHIFT`. -/
def MK_SHIFT : Nat := 0x4

/-- `MK_CONTROL`. -/
def MK_CONTROL : Nat := 0x8

/-- `MK_MBUTTON`. -/
def MK_MBUTTON : Nat := 0x10

/-- The mouse messages handled by `WindowImplWin32::WndProc`. -/
inductive WinMouseMsg where
  | LBUTTONDOWN
  | MBUTTONDOWN
  | RBUTTONDOWN
  | LBUTTONDBLCLK
  | MBUTTONDBLCLK
  | RBUTTONDBLCLK
  | LBUTTONUP
  | MBUTTONUP
  | RBUTTONUP
  | MOUSEMOVE
  | MOUSEWHEEL
  | MOUSELEAVE
deriving DecidableEq, Repr

/-- The mouse-event construction in the mouse branch of
`WindowImplWin32::WndProc` from `guiwin.cpp`: position from `lParam`, the
modifier/held-button mask from `wParam`, the button and type from the
message.  (The 100 ms context-menu-dismiss debounce and the wheel
forwarding to the window under the cursor happen before/around this
construction and are not modelled here.)  `wheelDeltaPositive` models
`GET_WHEEL_DELTA_WPARAM(wParam) > 0`. -/
def win32MouseEvent (msg : WinMouseMsg) (wParam : Nat) (x y : ℚ)
    (wheelDeltaPositive : Bool) : MouseEvent :=
  let base : MouseEvent :=
    { type := MouseType.MOTION, x := x, y := y, button := MouseButton.NONE,
      shiftDown := wParam &&& MK_SHIFT ≠ 0, controlDown := wParam &&& MK_CONTROL ≠ 0,
      scrollDelta := 0 }
  match msg with
  | WinMouseMsg.LBUTTONDOWN   => { base with button := MouseButton.LEFT,   type := MouseType.PRESS }
  | WinMouseMsg.MBUTTONDOWN   => { base with button := MouseButton.MIDDLE, type := MouseType.PRESS }
  | WinMouseMsg.RBUTTONDOWN   => { base with button := MouseButton.RIGHT,  type := MouseType.PRESS }
  | WinMouseMsg.LBUTTONDBLCLK => { base with button := MouseButton.LEFT,   type := MouseType.DBL_PRESS }
  | WinMouseMsg.MBUTTONDBLCLK => { base with button := MouseButton.MIDDLE, type := MouseType.DBL_PRESS }
  | WinMouseMsg.RBUTTONDBLCLK => { base with button := MouseButton.RIGHT,  type := MouseType.DBL_PRESS }
  | WinMouseMsg.LBUTTONUP     => { base with button := MouseButton.LEFT,   type := MouseType.RELEASE }
  | WinMouseMsg.MBUTTONUP     => { base with button := MouseButton.MIDDLE, type := MouseType.RELEASE }
  | WinMouseMsg.RBUTTONUP     => { base with button := MouseButton.RIGHT,  type := MouseType.RELEASE }
  | WinMouseMsg.MOUSEWHEEL    =>
      { base with type := MouseType.SCROLL_VERT,
                  scrollDelta := if wheelDeltaPositive then 1 else -1 }
  | WinMouseMsg.MOUSELEAVE    => { base with type := MouseType.LEAVE }
  | WinMouseMsg.MOUSEMOVE     =>
      { base with type := MouseType.MOTION,
                  button :=
                    if wParam &&& MK_LBUTTON ≠ 0 then MouseButton.LEFT
                    else if wParam &&& MK_MBUTTON ≠ 0 then MouseButton.MIDDLE
                    else if wParam &&& MK_RBUTTON ≠ 0 then MouseButton.RIGHT
                    else MouseButton.NONE }

/-- The explicit button an `WM_*BUTTON{DOWN,DBLCLK,UP}` message carries;
`none` for the messages with no explicit button. -/
def winMsgExplicitButton : WinMouseMsg → Option MouseButton
  | WinMouseMsg.LBUTTONDOWN   => some MouseButton.LEFT
  | WinMouseMsg.MBUTTONDOWN   => some MouseButton.MIDDLE
  | WinMouseMsg.RBUTTONDOWN   => some MouseButton.RIGHT
  | WinMouseMsg.LBUTTONDBLCLK => some MouseButton.LEFT
  | WinMouseMsg.MBUTTONDBLCLK => some MouseButton.MIDDLE
  | WinMouseMsg.RBUTTONDBLCLK => some MouseButton.RIGHT
  | WinMouseMsg.LBUTTONUP     => some MouseButton.LEFT
  | WinMouseMsg.MBUTTONUP     => some MouseButton.MIDDLE
  | WinMouseMsg.RBUTTONUP     => some MouseButton.RIGHT
  | _                         => none

/-! ## Menu items (`SetActive`, claim C4) -/

/-- `MenuItem::Indicator` from `gui.h`. -/
inductive Indicator where
  | NONE
  | CHECK_MARK
  | RADIO_MARK
deriving DecidableEq, Repr

/-- The GTK menu-item state read by `MenuItemImplGtk::SetActive`:
`hasIndicator` is `GtkMenuItem::_has_indicator` (set by `SetIndicator`),
`active` the check state. -/
structure GtkMenuItemState where
  hasIndicator : Bool
  active       : Bool
deriving DecidableEq, Repr

/-- `MenuItemImplGtk::SetActive` from `guigtk.cpp`: `ssassert` demands an
indicator; an assertion failure (program abort) is modelled as `none`. -/
def gtkSetActive (s : GtkMenuItemState) (active : Bool) : Option GtkMenuItemState :=
  if s.hasIndicator then some { s with active := active } else none

/-- `MFS_CHECKED`. -/
def MFS_CHECKED : Nat := 0x8

/-- The Win32 menu-item state: `indicator` is the abstract indicator the
item was last given via `SetIndicator` (the source stores only the
`MFT_RADIOCHECK` type bit, which does not distinguish `NONE` from
`CHECK_MARK`); `fState` is the `MENUITEMINFOW.fState` word. -/
structure Win32MenuItemState where
  indicator : Indicator
  fState    : Nat
deriving DecidableEq, Repr

/-- `MenuItemImplWin32::SetActive` from `guiwin.cpp`: sets or clears
`MFS_CHECKED` in `fState`.  The indicator is never consulted and no
assertion exists; the result type matches `gtkSetActive` with `none`
reserved for a rejection/assertion, which never occurs here. -/
def win32SetActive (s : Win32MenuItemState) (active : Bool) : Option Win32MenuItemState :=
  some { s with fState :=
    if active then s.fState ||| MFS_CHECKED
    else s.fState &&& (0xFFFFFFFF - MFS_CHECKED) }

/-! ## Configuration store and geometry persistence (claims C2, C3) -/

/-- The external configuration collaborator: a key/value store of integers.
Later writes shadow earlier ones. -/
abbrev Cfg : Type := List (String × ℤ)

/-- `CnfFreezeInt(value, key)`: record the value under the key. -/
def CnfFreezeInt (value : ℤ) (key : String) (cfg : Cfg) : Cfg :=
  (key, value) :: cfg

/-- `CnfThawInt(default, key)`: the stored value, or the default on a miss. -/
def CnfThawInt (dflt : ℤ) (key : String) (cfg : Cfg) : ℤ :=
  match List.lookup key cfg with
  | some v => v
  | none   => dflt

/-- A rectangle in the Win32 `RECT` convention. -/
structure Rect where
  left   : ℤ
  top    : ℤ
  right  : ℤ
  bottom : ℤ
deriving DecidableEq, Repr

/-- The GTK window geometry read by `WindowImplGtk::FreezePosition`:
visibility, position (`get_position`), size (`get_size`), maximized flag. -/
structure GtkWindowGeom where
  visible   : Bool
  left      : ℤ
  top       : ℤ
  width     : ℤ
  height    : ℤ
  maximized : Bool
deriving DecidableEq, Repr

/-- `WindowImplGtk::FreezePosition` from `guigtk.cpp`: a no-op when the
window is not visible, otherwise writes left/top/width/height/maximized. -/
def gtkFreezePosition (w : GtkWindowGeom) (key : String) (cfg : Cfg) : Cfg :=
  if !w.visible then cfg
  else
    CnfFreezeInt (if w.maximized then 1 else 0) (key ++ "_maximized") <|
    CnfFreezeInt w.height (key ++ "_height") <|
    CnfFreezeInt w.width (key ++ "_width") <|
    CnfFreezeInt w.top (key ++ "_top") <|
    CnfFreezeInt w.left (key ++ "_left") cfg

/-- `WindowImplWin32::FreezePosition` from `guiwin.cpp`: writes the
placement's normal-position rectangle and the maximized flag.  The source
never consults the window's visibility; the `visible` parameter models the
observable window state (`IsWindowVisible`) and is accordingly unused. -/
def win32FreezePosition (_visible : Bool) (placement : Rect) (isMaximized : Bool)
    (key : String) (cfg : Cfg) : Cfg :=
  CnfFreezeInt (if isMaximized then 1 else 0) (key ++ "_maximized") <|
  CnfFreezeInt placement.bottom (key ++ "_bottom") <|
  CnfFreezeInt placement.top (key ++ "_top") <|
  CnfFreezeInt placement.right (key ++ "_right") <|
  CnfFreezeInt placement.left (key ++ "_left") cfg

/-- The `Clamp` helper from `guiwin.cpp`: `max(a, min(x, b))`. -/
def Clamp (x a b : ℤ) : ℤ := max a (min x b)

/-- Result of `WindowImplWin32::ThawPosition`: the normal-position
rectangle written back into the placement, and whether the window is shown
maximized. -/
structure Win32ThawResult where
  rect      : Rect
  maximized : Bool
deriving DecidableEq, Repr

/-- The rectangle `WindowImplWin32::ThawPosition` reads back from the
configuration store before clamping; `cur` is the placement's current
normal-position rectangle, supplying the thaw defaults. -/
def win32ThawRequestedRect (cfg : Cfg) (key : String) (cur : Rect) : Rect :=
  { left   := CnfThawInt cur.left   (key ++ "_left") cfg,
    top    := CnfThawInt cur.top    (key ++ "_top") cfg,
    right  := CnfThawInt cur.right  (key ++ "_right") cfg,
    bottom := CnfThawInt cur.bottom (key ++ "_bottom") cfg }

/-- `WindowImplWin32::ThawPosition` from `guiwin.cpp`.  The restored
rectangle is clamped edge-by-edge into the rectangle of the monitor
nearest the restored position; `monitorOf` models
`MonitorFromRect(…, MONITOR_DEFAULTTONEAREST)` followed by
`GetMonitorInfo`. -/
def win32ThawPosition (cfg : Cfg) (key : String) (cur : Rect)
    (monitorOf : Rect → Rect) : Win32ThawResult :=
  let rc := win32ThawRequestedRect cfg key cur
  let mrc := monitorOf rc
  { rect :=
      { left   := Clamp rc.left   mrc.left mrc.right,
        top    := Clamp rc.top    mrc.top  mrc.bottom,
        right  := Clamp rc.right  mrc.left mrc.right,
        bottom := Clamp rc.bottom mrc.top  mrc.bottom },
    maximized := CnfThawInt 0 (key ++ "_maximized") cfg ≠ 0 }

/-- Result of `WindowImplGtk::ThawPosition`: the geometry passed to
`move`/`resize` and whether `maximize` is called. -/
structure GtkThawResult where
  left      : ℤ
  top       : ℤ
  width     : ℤ
  height    : ℤ
  maximized : Bool
deriving DecidableEq, Repr

/-- `WindowImplGtk::ThawPosition` from `guigtk.cpp`: restores the stored
geometry verbatim (defaults from the current position/size); no monitor
clamping of any kind is performed. -/
def gtkThawPosition (cfg : Cfg) (key : String)
    (curLeft curTop curWidth curHeight : ℤ) : GtkThawResult :=
  { left      := CnfThawInt curLeft   (key ++ "_left") cfg,
    top       := CnfThawInt curTop    (key ++ "_top") cfg,
    width     := CnfThawInt curWidth  (key ++ "_width") cfg,
    height    := CnfThawInt curHeight (key ++ "_height") cfg,
    maximized := CnfThawInt 0 (key ++ "_maximized") cfg ≠ 0 }

/-- A window rectangle given as position and size lies entirely outside the
monitor rectangle `m` ("fully off-screen"). -/
def fullyOffScreen (left top width height : ℤ) (m : Rect) : Prop :=
  m.right ≤ left ∨ left + width ≤ m.left ∨ m.bottom ≤ top ∨ top + height ≤ m.top

/-- Every edge coordinate of the rectangle `r` lies within the bounds of
the monitor rectangle `m`. -/
def rectWithin (r m : Rect) : Prop :=
  m.left ≤ r.left ∧ r.left ≤ m.right ∧
  m.left ≤ r.right ∧ r.right ≤ m.right ∧
  m.top ≤ r.top ∧ r.top ≤ m.bottom ∧
  m.top ≤ r.bottom ∧ r.bottom ≤ m.bottom

/-! ## Scrollbar (claims C8, C10) -/

/-- `SCROLLBAR_UNIT` from `guiwin.cpp`. -/
def SCROLLBAR_UNIT : ℤ := 65536

/-- The C cast `(UINT)(q * SCROLLBAR_UNIT)`, modelled on rationals as
truncation toward zero (`Int` division of numerator by denominator); every
value so cast in the modeled scenarios is nonnegative. -/
def toScrollUnits (q : ℚ) : ℤ := (q * 65536).num / ((q * 65536).den : ℤ)

/-- The vertical-scrollbar `SCROLLINFO` fields the host stores for the
window. -/
structure Win32ScrollInfo where
  nMin  : ℤ
  nMax  : ℤ
  nPage : ℤ
  nPos  : ℤ
deriving DecidableEq, Repr

/-- The per-window scrollbar state of `WindowImplWin32`: the adapter's own
`scrollbarVisible` flag (initially false) and the host-side scroll info. -/
structure Win32WindowScroll where
  scrollbarVisible : Bool
  si               : Win32ScrollInfo
deriving DecidableEq, Repr

/-- A freshly created `WindowImplWin32`'s scrollbar state:
`scrollbarVisible = false` (member initializer), host scroll info zeroed. -/
def win32FreshScroll : Win32WindowScroll :=
  { scrollbarVisible := false, si := { nMin := 0, nMax := 0, nPage := 0, nPos := 0 } }

/-- Modelled host behavior of `SetScrollInfo` with `SIF_POS`: the stored
position is clamped between `nMin` and `nMax - max(nPage - 1, 0)`. -/
def hostSetScrollPos (pos : ℤ) (si : Win32ScrollInfo) : Win32ScrollInfo :=
  { si with nPos := max si.nMin (min pos (si.nMax - max (si.nPage - 1) 0)) }

/-- `WindowImplWin32::SetScrollbarVisible` from `guiwin.cpp`. -/
def win32SetScrollbarVisible (visible : Bool) (w : Win32WindowScroll) : Win32WindowScroll :=
  { w with scrollbarVisible := visible }

/-- `WindowImplWin32::ConfigureScrollbar` from `guiwin.cpp`: stores the
fixed-point range and page size (`SIF_RANGE|SIF_PAGE`); the position is
untouched and no callback fires. -/
def win32ConfigureScrollbar (minV maxV pageSize : ℚ) (w : Win32WindowScroll) :
    Win32WindowScroll :=
  { w with si := { w.si with
      nMin  := toScrollUnits minV,
      nMax  := toScrollUnits maxV,
      nPage := toScrollUnits pageSize } }

/-- `WindowImplWin32::SetScrollbarPosition` from `guiwin.cpp`: stores the
fixed-point position via `SetScrollInfo`, then (Windows synthesizes no
WM_VSCROLL here) invokes `onScrollbarAdjusted` itself with the local
`si.nPos / SCROLLBAR_UNIT`.  The second component lists the arguments of
the `onScrollbarAdjusted` calls made (the callback is registered). -/
def win32SetScrollbarPosition (pos : ℚ) (w : Win32WindowScroll) :
    Win32WindowScroll × List ℚ :=
  let nPos := toScrollUnits pos
  ({ w with si := hostSetScrollPos nPos w.si }, [(nPos : ℚ) / 65536])

/-- `WindowImplWin32::GetScrollbarPosition` from `guiwin.cpp`: returns 0.0
unless `scrollbarVisible`, else the stored fixed-point position divided by
`SCROLLBAR_UNIT`. -/
def win32GetScrollbarPosition (w : Win32WindowScroll) : ℚ :=
  if !w.scrollbarVisible then 0
  else (w.si.nPos : ℚ) / 65536

/-- The scrollbar operations of the Window contract on the Win32 backend,
for reasoning about call sequences. -/
inductive ScrollOp where
  | setVisible (b : Bool)
  | configure (minV maxV pageSize : ℚ)
  | setPos (pos : ℚ)
deriving DecidableEq

/-- Apply one scrollbar operation to a Win32 window's scrollbar state. -/
def applyScrollOp (w : Win32WindowScroll) : ScrollOp → Win32WindowScroll
  | ScrollOp.setVisible b        => win32SetScrollbarVisible b w
  | ScrollOp.configure a b c     => win32ConfigureScrollbar a b c w
  | ScrollOp.setPos p            => (win32SetScrollbarPosition p w).1

/-- Apply a sequence of scrollbar operations, left to right. -/
def applyScrollOps : Win32WindowScroll → List ScrollOp → Win32WindowScroll
  | w, []        => w
  | w, op :: ops => applyScrollOps (applyScrollOp w op) ops

/-- The `GtkAdjustment` backing the GTK scrollbar: value, bounds, and page
size (the step/page increments the adapter passes are irrelevant to the
claims). -/
structure GtkAdjustment where
  value    : ℚ
  lower    : ℚ
  upper    : ℚ
  pageSize : ℚ
deriving DecidableEq, Repr

/-- A fresh `Gtk::VScrollbar`'s adjustment: everything zero. -/
def gtkFreshAdjustment : GtkAdjustment :=
  { value := 0, lower := 0, upper := 0, pageSize := 0 }

/-- Modelled host behavior of `GtkAdjustment`: a requested value is clamped
into `[lower, max(lower, upper - pageSize)]`. -/
def gtkAdjClamp (a : GtkAdjustment) (v : ℚ) : ℚ :=
  max a.lower (min v (max a.lower (a.upper - a.pageSize)))

/-- `WindowImplGtk::ConfigureScrollbar` from `guigtk.cpp`:
`adjustment->configure(get_value(), min, max, 1, 4, pageSize)`.  Modelled
host behavior: the kept value is re-clamped into the new range and
`value-changed` is emitted iff the value changed; the adapter's connected
handler forwards each emission to `onScrollbarAdjusted` with the new value.
The second component lists those callback arguments. -/
def gtkConfigureScrollbar (minV maxV pageSize : ℚ) (a : GtkAdjustment) :
    GtkAdjustment × List ℚ :=
  let a' : GtkAdjustment := { value := a.value, lower := minV, upper := maxV, pageSize := pageSize }
  let v := gtkAdjClamp a' a.value
  ({ a' with value := v }, if v = a.value then [] else [v])

/-- `WindowImplGtk::SetScrollbarPosition` from `guigtk.cpp`:
`adjustment->set_value(pos)`.  Modelled host behavior: the value is
clamped and `value-changed` is emitted iff it changed, reaching
`onScrollbarAdjusted` through the adapter's handler. -/
def gtkSetScrollbarPosition (pos : ℚ) (a : GtkAdjustment) : GtkAdjustment × List ℚ :=
  let v := gtkAdjClamp a pos
  if v = a.value then (a, []) else ({ a with value := v }, [v])

/-- `WindowImplGtk::GetScrollbarPosition` from `guigtk.cpp`:
`adjustment->get_value()`. -/
def gtkGetScrollbarPosition (a : GtkAdjustment) : ℚ := a.value

/-! ## Timers (claim C9) -/

/-- The Glib main-loop timeout sources visible to one process: a source id
counter and the pending `(sourceId, fireTime)` registrations.  A handler
returning false is removed after firing. -/
structure GlibState where
  nextId  : Nat
  sources : List (Nat × Nat)
deriving DecidableEq, Repr

/-- An empty Glib scheduler. -/
def glibEmpty : GlibState := { nextId := 0, sources := [] }

/-- `sigc::connection::disconnect`: removes the source registration. -/
def glibDisconnect (id : Nat) (s : GlibState) : GlibState :=
  { s with sources := s.sources.filter (fun p => p.1 ≠ id) }

/-- `Glib::signal_timeout().connect(handler, ms)` at current time `now`:
registers a fresh source due at `now + ms` and returns its id. -/
def glibTimeoutConnect (now ms : Nat) (s : GlibState) : Nat × GlibState :=
  (s.nextId, { nextId := s.nextId + 1, sources := s.sources ++ [(s.nextId, now + ms)] })

/-- `TimerImplGtk`: holds the `sigc::connection` of its pending fire
(`none` models an empty connection). -/
structure TimerImplGtk where
  connection : Option Nat
deriving DecidableEq, Repr

/-- `TimerImplGtk::WindUp` from `guigtk.cpp`: disconnect a non-empty
existing connection, then connect a fresh one-shot timeout.  The handler
invokes `onTimeout` and returns false, so a fired source does not repeat. -/
def TimerImplGtk.WindUp (t : TimerImplGtk) (now ms : Nat) (s : GlibState) :
    TimerImplGtk × GlibState :=
  let s1 := match t.connection with
    | some id => glibDisconnect id s
    | none    => s
  let (id, s2) := glibTimeoutConnect now ms s1
  ({ connection := some id }, s2)

/-- Advance the Glib loop to time `T`: every source due by `T` fires once,
its handler invokes `onTimeout` and returns false, removing it.  Returns
the scheduler afterwards and the number of `onTimeout` invocations (all
sources here belong to the single timer under study). -/
def glibFireDue (T : Nat) (s : GlibState) : GlibState × Nat :=
  ({ s with sources := s.sources.filter (fun p => ¬ p.2 ≤ T) },
   (s.sources.filter (fun p => p.2 ≤ T)).length)

/-- The Win32 timer table of the shared message-only window: `(event id,
fire time)` entries.  Modelled host behavior of `SetTimer`: passing an id
that already has a timer replaces (resets) that timer, so at most one entry
per id exists. -/
def win32SetTimer (id : Nat) (now ms : Nat) (tbl : List (Nat × Nat)) :
    List (Nat × Nat) :=
  (tbl.filter (fun p => p.1 ≠ id)) ++ [(id, now + ms)]

/-- `TimerImplWin32::WindUp` from `guiwin.cpp`: one `SetTimer` call with
the timer object's address as the event id. -/
def win32WindUp (id : Nat) (now ms : Nat) (tbl : List (Nat × Nat)) :
    List (Nat × Nat) :=
  win32SetTimer id now ms tbl

/-- Advance the Win32 timer queue to time `T`: each due timer's
`TimerFunc` runs, which first calls `KillTimer` (removing the entry) and
then invokes `onTimeout` once.  Returns the table afterwards and the
number of `onTimeout` invocations. -/
def win32FireDue (T : Nat) (tbl : List (Nat × Nat)) : List (Nat × Nat) × Nat :=
  (tbl.filter (fun p => ¬ p.2 ≤ T), (tbl.filter (fun p => p.2 ≤ T)).length)

end SSGui

namespace SSGui

/-! ## Theorems: keyboard dispatch (claims C1, C5, C6) -/

/-- Claim C1, counterexample.  On the Win32 backend the registered
`onKeyboardEvent` callback's boolean result does not determine whether the
event is reported handled: with a callback that returns false (unhandled),
the window procedure still reports the key message handled. -/
theorem C1_counterexample :
    (WndProcKey (fun _ => false) ⟨true, 0x41, false, false, false⟩).callbackResult
      = some false ∧
    (WndProcKey (fun _ => false) ⟨true, 0x41, false, false, false⟩).handled = true := by
  decide

/-- Claim C1, amended.  Each backend dispatches the normalized
`KeyboardEvent` to a keyboard handler: on GTK (where the adapter passes the
event to the application's global keyboard handler rather than the window's
registered callback slot) the handler's boolean result determines whether
the event is reported handled, while on Win32 the registered
`onKeyboardEvent` callback is invoked but its result is discarded — the
key message is always reported handled. -/
theorem C1_keyboard_dispatch (handler cb : KeyboardEvent → Bool) (t : KeyType)
    (e : GdkEventKey) (m : Win32KeyMsg) (ev : KeyboardEvent)
    (h : (process_key_event handler t e).event = some ev) :
    (process_key_event handler t e).handled = handler ev ∧
    (WndProcKey cb m).handled = true := by
  constructor
  · simp only [process_key_event] at h ⊢
    split_ifs at h ⊢ <;> simp_all
  · simp only [WndProcKey]
    split_ifs <;> rfl

/-- Witness for `C1_keyboard_dispatch` at a concrete GTK event (keyval 'a',
no modifiers) and a concrete Win32 message. -/
theorem C1_keyboard_dispatch_witness :
    (process_key_event (fun _ => false) KeyType.PRESS ⟨0, 97⟩).event =
      some ⟨KeyType.PRESS, KeyKind.CHARACTER, 97, false, false⟩ ∧
    ((process_key_event (fun _ => false) KeyType.PRESS ⟨0, 97⟩).handled =
      (fun (_ : KeyboardEvent) => false) ⟨KeyType.PRESS, KeyKind.CHARACTER, 97, false, false⟩ ∧
     (WndProcKey (fun _ => true) ⟨true, 0x42, false, false, false⟩).handled = true) :=
  ⟨by decide,
   C1_keyboard_dispatch (fun _ => false) (fun _ => true) KeyType.PRESS ⟨0, 97⟩
     ⟨true, 0x42, false, false, false⟩
     ⟨KeyType.PRESS, KeyKind.CHARACTER, 97, false, false⟩ (by decide)⟩

/-- Claim C5, counterexample.  On the Win32 backend a key message delivered
while a modifier other than Shift/Control is held (modelled by
`otherModifierHeld = true`) is not dropped: a `KeyboardEvent` is produced,
the callback is invoked, and the message is reported handled. -/
theorem C5_counterexample :
    (WndProcKey (fun _ => true) ⟨true, 0x41, false, false, true⟩).event =
      some ⟨KeyType.PRESS, KeyKind.CHARACTER, 97, false, false⟩ ∧
    (WndProcKey (fun _ => true) ⟨true, 0x41, false, false, true⟩).callbackResult ≠ none ∧
    (WndProcKey (fun _ => true) ⟨true, 0x41, false, false, true⟩).handled = true := by
  decide

/-- Claim C5, amended.  On the GTK backend a keyboard event whose modifier
state has any bit set besides Shift and Control is dropped: no
`KeyboardEvent` is produced and the event is reported unhandled.  The Win32
backend consults only the Shift and Control key states: its result is
unchanged by any other held modifier, so such events are still decoded and
dispatched there. -/
theorem C5_modifier_policy (handler : KeyboardEvent → Bool) (t : KeyType)
    (e : GdkEventKey) (h : e.state &&& GDK_NON_SHIFT_CTRL_MASK ≠ 0)
    (cb : KeyboardEvent → Bool) (m : Win32KeyMsg) (b1 b2 : Bool) :
    process_key_event handler t e = ⟨none, false⟩ ∧
    WndProcKey cb { m with otherModifierHeld := b1 } =
      WndProcKey cb { m with otherModifierHeld := b2 } := by
  constructor
  · simp [process_key_event, h]
  · rfl

/-- Witness for `C5_modifier_policy` at a GTK event carrying the Alt
modifier (GDK_MOD1_MASK, bit 3). -/
theorem C5_modifier_policy_witness :
    ((8 : Nat) &&& GDK_NON_SHIFT_CTRL_MASK ≠ 0) ∧
    (process_key_event (fun _ => true) KeyType.PRESS ⟨8, 97⟩ = ⟨none, false⟩ ∧
     WndProcKey (fun _ => true) ⟨true, 0x41, false, false, true⟩ =
       WndProcKey (fun _ => true) ⟨true, 0x41, false, false, false⟩) :=
  ⟨by decide,
   C5_modifier_policy (fun _ => true) KeyType.PRESS ⟨8, 97⟩ (by decide)
     (fun _ => true) ⟨true, 0x41, false, false, false⟩ true false⟩

/-- Claim C6, counterexample.  The GTK backend performs no Shift+'.'
rewrite: a keyval '.' event with the Shift modifier decodes to the
character '.' with `shiftDown` still set, not to '>' with `shiftDown`
cleared. -/
theorem C6_counterexample :
    (process_key_event (fun _ => false) KeyType.PRESS ⟨1, 46⟩).event =
      some ⟨KeyType.PRESS, KeyKind.CHARACTER, 46, true, false⟩ ∧
    (process_key_event (fun _ => false) KeyType.PRESS ⟨1, 46⟩).event ≠
      some ⟨KeyType.PRESS, KeyKind.CHARACTER, 62, false, false⟩ := by
  decide

/-- Claim C6, amended.  Only the Win32 backend rewrites Shift+'.': there, a
'.'-key message with Shift held decodes to the character '>' with
`shiftDown` cleared, and no `KeyboardEvent` it produces ever carries the
character '.' together with `shiftDown`.  The GTK backend performs no such
rewrite (see the counterexample). -/
theorem C6_shift_period (cb : KeyboardEvent → Bool) (d c o : Bool)
    (m : Win32KeyMsg) (ev : KeyboardEvent)
    (h : (WndProcKey cb m).event = some ev) :
    (WndProcKey cb ⟨d, VK_OEM_PERIOD, true, c, o⟩).event =
      some ⟨if d then KeyType.PRESS else KeyType.RELEASE, KeyKind.CHARACTER, 62, false, c⟩ ∧
    ¬(ev.key = KeyKind.CHARACTER ∧ ev.chrOrNum = 46 ∧ ev.shiftDown = true) := by
  constructor
  · rfl
  · simp only [WndProcKey] at h
    split_ifs at h <;> simp at h <;> (try subst h) <;> simp_all

/-- Witness for `C6_shift_period` at a concrete Win32 'A'-key message. -/
theorem C6_shift_period_witness :
    (WndProcKey (fun _ => false) ⟨true, 0x41, false, false, false⟩).event =
      some ⟨KeyType.PRESS, KeyKind.CHARACTER, 97, false, false⟩ ∧
    ((WndProcKey (fun _ => false) ⟨true, VK_OEM_PERIOD, true, false, false⟩).event =
      some ⟨if true then KeyType.PRESS else KeyType.RELEASE, KeyKind.CHARACTER, 62, false, false⟩ ∧
     ¬((⟨KeyType.PRESS, KeyKind.CHARACTER, 97, false, false⟩ : KeyboardEvent).key = KeyKind.CHARACTER ∧
       (⟨KeyType.PRESS, KeyKind.CHARACTER, 97, false, false⟩ : KeyboardEvent).chrOrNum = 46 ∧
       (⟨KeyType.PRESS, KeyKind.CHARACTER, 97, false, false⟩ : KeyboardEvent).shiftDown = true)) :=
  ⟨by decide,
   C6_shift_period (fun _ => false) true false false ⟨true, 0x41, false, false, false⟩
     ⟨KeyType.PRESS, KeyKind.CHARACTER, 97, false, false⟩ (by decide)⟩

end SSGui

namespace SSGui

/-! ## Theorems: geometry persistence and menu items (claims C2, C3, C4) -/

/-- Claim C2, counterexample.  On the Win32 backend `FreezePosition` on an
invisible window is not a no-op: the placement rectangle is written to the
configuration store, so a subsequent `ThawPosition` of the same key sees
the newly written value (10) instead of the previously stored default (0). -/
theorem C2_counterexample :
    CnfThawInt 0 "w_left" (win32FreezePosition false ⟨10, 20, 30, 40⟩ false "w" []) = 10 ∧
    CnfThawInt 0 "w_left" ([] : Cfg) = 0 := by
  constructor <;> decide

/-- Claim C2, amended.  On the GTK backend `FreezePosition` on an invisible
window is a no-op: the configuration store is returned unchanged, so a
subsequent `ThawPosition` sees only previously stored values.  The Win32
backend never consults visibility: its `FreezePosition` always writes the
placement rectangle, visible or not. -/
theorem C2_freeze_visibility (w : GtkWindowGeom) (key : String) (cfg : Cfg)
    (h : w.visible = false) (v : Bool) (p : Rect) (mx : Bool) (d : ℤ) :
    gtkFreezePosition w key cfg = cfg ∧
    CnfThawInt d ("w" ++ "_left") (win32FreezePosition v p mx "w" []) = p.left := by
  refine ⟨?_, rfl⟩
  simp [gtkFreezePosition, h]

/-- Witness for `C2_freeze_visibility` at a concrete invisible window. -/
theorem C2_freeze_visibility_witness :
    (⟨false, 1, 2, 3, 4, false⟩ : GtkWindowGeom).visible = false ∧
    (gtkFreezePosition ⟨false, 1, 2, 3, 4, false⟩ "w" [] = [] ∧
     CnfThawInt 0 ("w" ++ "_left")
       (win32FreezePosition true ⟨10, 20, 30, 40⟩ false "w" []) = (10 : ℤ)) :=
  ⟨rfl, C2_freeze_visibility ⟨false, 1, 2, 3, 4, false⟩ "w" [] rfl true ⟨10, 20, 30, 40⟩ false 0⟩

/-- Claim C3, counterexample.  The GTK backend's `ThawPosition` applies the
stored geometry verbatim: with a stored position of (100000, 100000) the
window is moved there, fully off-screen relative to a 1920x1080 monitor at
the origin — no clamping to any monitor occurs. -/
theorem C3_counterexample :
    gtkThawPosition
        [("w_left", 100000), ("w_top", 100000), ("w_width", 200), ("w_height", 100)]
        "w" 0 0 640 480 = ⟨100000, 100000, 200, 100, false⟩ ∧
    fullyOffScreen 100000 100000 200 100 ⟨0, 0, 1920, 1080⟩ :=
  ⟨by decide, Or.inl (by decide)⟩

/-- Claim C3, amended.  On the Win32 backend `ThawPosition` clamps every
edge of the restored rectangle into the bounds of the monitor nearest the
restored position, so the thawed window is never placed fully off-screen;
the GTK backend restores the stored geometry without any clamping (see the
counterexample). -/
theorem C3_thaw_clamped (cfg : Cfg) (key : String) (cur : Rect)
    (monitorOf : Rect → Rect)
    (h1 : (monitorOf (win32ThawRequestedRect cfg key cur)).left ≤
          (monitorOf (win32ThawRequestedRect cfg key cur)).right)
    (h2 : (monitorOf (win32ThawRequestedRect cfg key cur)).top ≤
          (monitorOf (win32ThawRequestedRect cfg key cur)).bottom) :
    rectWithin (win32ThawPosition cfg key cur monitorOf).rect
      (monitorOf (win32ThawRequestedRect cfg key cur)) := by
  simp only [rectWithin, win32ThawPosition, Clamp]
  omega

/-- Witness for `C3_thaw_clamped` at an empty store and a single
1920x1080 monitor at the origin. -/
theorem C3_thaw_clamped_witness :
    ((fun (_ : Rect) => (⟨0, 0, 1920, 1080⟩ : Rect))
        (win32ThawRequestedRect [] "w" ⟨0, 0, 100, 100⟩)).left ≤
      ((fun (_ : Rect) => (⟨0, 0, 1920, 1080⟩ : Rect))
        (win32ThawRequestedRect [] "w" ⟨0, 0, 100, 100⟩)).right ∧
    rectWithin (win32ThawPosition [] "w" ⟨0, 0, 100, 100⟩
        (fun _ => ⟨0, 0, 1920, 1080⟩)).rect
      ((fun (_ : Rect) => (⟨0, 0, 1920, 1080⟩ : Rect))
        (win32ThawRequestedRect [] "w" ⟨0, 0, 100, 100⟩)) :=
  ⟨by decide,
   C3_thaw_clamped [] "w" ⟨0, 0, 100, 100⟩ (fun _ => ⟨0, 0, 1920, 1080⟩)
     (by decide) (by decide)⟩

/-- Claim C4, counterexample.  On the Win32 backend `SetActive` on a menu
item whose indicator is NONE is silently accepted: the checked state is
updated and no rejection or assertion occurs. -/
theorem C4_counterexample :
    win32SetActive ⟨Indicator.NONE, 0⟩ true = some ⟨Indicator.NONE, 8⟩ ∧
    win32SetActive ⟨Indicator.NONE, 0⟩ true ≠ none := by
  constructor <;> decide

/-- Claim C4, amended.  On the GTK backend `SetActive` on an item without
an indicator fails the `ssassert` (a programming-error assertion), and is
never silently accepted; the Win32 backend performs no such check and
always accepts the call, whatever the item's indicator. -/
theorem C4_set_active_policy (s : GtkMenuItemState) (a : Bool)
    (h : s.hasIndicator = false) (s2 : Win32MenuItemState) (a2 : Bool) :
    gtkSetActive s a = none ∧ (win32SetActive s2 a2).isSome = true := by
  constructor
  · simp [gtkSetActive, h]
  · simp [win32SetActive]

/-- Witness for `C4_set_active_policy` at a concrete indicator-less item. -/
theorem C4_set_active_policy_witness :
    (⟨false, false⟩ : GtkMenuItemState).hasIndicator = false ∧
    (gtkSetActive ⟨false, false⟩ true = none ∧
     (win32SetActive ⟨Indicator.NONE, 0⟩ true).isSome = true) :=
  ⟨rfl, C4_set_active_policy ⟨false, false⟩ true rfl ⟨Indicator.NONE, 0⟩ true⟩

/-! ## Theorems: pointer-button resolution (claim C7) -/

/-- Claim C7, counterexample.  On the GTK backend a press event carrying
the explicit button index 3 (right) while the held-button mask records
button 1 (left) resolves to LEFT, not to the explicit RIGHT button: the
mask is consulted even though an explicit button was given. -/
theorem C7_counterexample :
    (process_pointer_event MouseType.PRESS 0 0 GDK_BUTTON1_MASK 3 0).button =
      MouseButton.LEFT ∧
    (process_pointer_event MouseType.PRESS 0 0 GDK_BUTTON1_MASK 3 0).button ≠
      MouseButton.RIGHT := by
  constructor <;> decide

/-- Claim C7, amended.  On the Win32 backend every press/release message
resolves to its explicit button regardless of the held-button mask, and
motion consults the mask with priority LEFT over MIDDLE over RIGHT.  On
the GTK backend the explicit button index is honored only when the state
mask records no held button, and with no explicit button the mask resolves
with priority LEFT over MIDDLE over RIGHT; an explicit button competes
with the mask in that same order (see the counterexample). -/
theorem C7_button_resolution (msg : WinMouseMsg) (w : Nat) (x y : ℚ) (wp : Bool)
    (b : MouseButton) (h : winMsgExplicitButton msg = some b)
    (t : MouseType) (x2 y2 : ℚ) (state state2 button : Nat) (d2 : ℤ)
    (h1 : state &&& GDK_BUTTON1_MASK = 0) (h2 : state &&& GDK_BUTTON2_MASK = 0)
    (h3 : state &&& GDK_BUTTON3_MASK = 0) :
    (win32MouseEvent msg w x y wp).button = b ∧
    (win32MouseEvent WinMouseMsg.MOUSEMOVE w x y wp).button =
      (if w &&& MK_LBUTTON ≠ 0 then MouseButton.LEFT
       else if w &&& MK_MBUTTON ≠ 0 then MouseButton.MIDDLE
       else if w &&& MK_RBUTTON ≠ 0 then MouseButton.RIGHT
       else MouseButton.NONE) ∧
    (process_pointer_event t x2 y2 state button d2).button =
      (if button = 1 then MouseButton.LEFT
       else if button = 2 then MouseButton.MIDDLE
       else if button = 3 then MouseButton.RIGHT
       else MouseButton.NONE) ∧
    (process_pointer_event t x2 y2 state2 0 d2).button =
      (if state2 &&& GDK_BUTTON1_MASK ≠ 0 then MouseButton.LEFT
       else if state2 &&& GDK_BUTTON2_MASK ≠ 0 then MouseButton.MIDDLE
       else if state2 &&& GDK_BUTTON3_MASK ≠ 0 then MouseButton.RIGHT
       else MouseButton.NONE) := by
  refine ⟨?_, rfl, ?_, ?_⟩
  · cases msg <;> simp_all [winMsgExplicitButton, win32MouseEvent]
  · simp [process_pointer_event, h1, h2, h3]
  · simp [process_pointer_event]

/-- Witness for `C7_button_resolution` at a concrete right-button press
with an empty mask. -/
theorem C7_button_resolution_witness :
    winMsgExplicitButton WinMouseMsg.RBUTTONDOWN = some MouseButton.RIGHT ∧
    (0 : Nat) &&& GDK_BUTTON1_MASK = 0 ∧
    ((win32MouseEvent WinMouseMsg.RBUTTONDOWN 1 0 0 false).button = MouseButton.RIGHT ∧
     (win32MouseEvent WinMouseMsg.MOUSEMOVE 1 0 0 false).button =
       (if (1 : Nat) &&& MK_LBUTTON ≠ 0 then MouseButton.LEFT
        else if (1 : Nat) &&& MK_MBUTTON ≠ 0 then MouseButton.MIDDLE
        else if (1 : Nat) &&& MK_RBUTTON ≠ 0 then MouseButton.RIGHT
        else MouseButton.NONE) ∧
     (process_pointer_event MouseType.PRESS 0 0 0 3 0).button =
       (if (3 : Nat) = 1 then MouseButton.LEFT
        else if (3 : Nat) = 2 then MouseButton.MIDDLE
        else if (3 : Nat) = 3 then MouseButton.RIGHT
        else MouseButton.NONE) ∧
     (process_pointer_event MouseType.PRESS 0 0 1536 0 0).button =
       (if (1536 : Nat) &&& GDK_BUTTON1_MASK ≠ 0 then MouseButton.LEFT
        else if (1536 : Nat) &&& GDK_BUTTON2_MASK ≠ 0 then MouseButton.MIDDLE
        else if (1536 : Nat) &&& GDK_BUTTON3_MASK ≠ 0 then MouseButton.RIGHT
        else MouseButton.NONE)) :=
  ⟨rfl, by decide,
   C7_button_resolution WinMouseMsg.RBUTTONDOWN 1 0 0 false MouseButton.RIGHT rfl
     MouseType.PRESS 0 0 0 1536 3 0 (by decide) (by decide) (by decide)⟩

end SSGui

namespace SSGui

/-! ## Theorems: scrollbar fixed-point round-trip (claims C8, C10) -/

/-- Claim C8, counterexample.  On the Win32 backend, starting from a
freshly created window (whose scrollbar has not been made visible),
`ConfigureScrollbar(0,10,2)` followed by `SetScrollbarPosition(5)` fires
`onScrollbarAdjusted(5.0)` exactly once, but the subsequent
`GetScrollbarPosition()` returns 0.0, not 5.0: the getter short-circuits
to 0.0 while the scrollbar is hidden. -/
theorem C8_counterexample :
    (win32SetScrollbarPosition 5 (win32ConfigureScrollbar 0 10 2 win32FreshScroll)).2 = [5] ∧
    win32GetScrollbarPosition
      (win32SetScrollbarPosition 5 (win32ConfigureScrollbar 0 10 2 win32FreshScroll)).1 = 0 ∧
    (0 : ℚ) ≠ 5 := by
  refine ⟨?_, ?_, by norm_num⟩
  · simp [win32SetScrollbarPosition, win32ConfigureScrollbar, win32FreshScroll, toScrollUnits]
    norm_num
  · simp [win32GetScrollbarPosition, win32SetScrollbarPosition, win32ConfigureScrollbar,
          win32FreshScroll]

/-- Claim C8, amended.  With the scrollbar made visible on the Win32
backend (and from the fresh adjustment on the GTK backend),
`ConfigureScrollbar(0,10,2)` then `SetScrollbarPosition(5)` invokes
`onScrollbarAdjusted` exactly once with argument 5.0, and a subsequent
`GetScrollbarPosition()` returns exactly 5.0: the round-trip through the
factor-65536 fixed-point encoding loses nothing at this value.  With the
scrollbar left hidden the Win32 getter reports 0.0 instead (see the
counterexample). -/
theorem C8_scroll_roundtrip :
    (win32SetScrollbarPosition 5
        (win32ConfigureScrollbar 0 10 2 (win32SetScrollbarVisible true win32FreshScroll))).2
      = [5] ∧
    win32GetScrollbarPosition
      (win32SetScrollbarPosition 5
        (win32ConfigureScrollbar 0 10 2 (win32SetScrollbarVisible true win32FreshScroll))).1
      = 5 ∧
    (gtkConfigureScrollbar 0 10 2 gtkFreshAdjustment).2 = [] ∧
    (gtkSetScrollbarPosition 5 (gtkConfigureScrollbar 0 10 2 gtkFreshAdjustment).1).2 = [5] ∧
    gtkGetScrollbarPosition
      (gtkSetScrollbarPosition 5 (gtkConfigureScrollbar 0 10 2 gtkFreshAdjustment).1).1 = 5 := by
  refine ⟨?_, ?_, ?_, ?_, ?_⟩
  · simp [win32SetScrollbarPosition, win32ConfigureScrollbar, win32FreshScroll,
          win32SetScrollbarVisible, toScrollUnits]
    norm_num
  · simp [win32GetScrollbarPosition, win32SetScrollbarPosition, win32ConfigureScrollbar,
          win32FreshScroll, win32SetScrollbarVisible, hostSetScrollPos, toScrollUnits]
    norm_num
  · simp [gtkConfigureScrollbar, gtkFreshAdjustment, gtkAdjClamp]
  · simp [gtkSetScrollbarPosition, gtkConfigureScrollbar, gtkFreshAdjustment, gtkAdjClamp]
    norm_num
  · simp [gtkGetScrollbarPosition, gtkSetScrollbarPosition, gtkConfigureScrollbar,
          gtkFreshAdjustment, gtkAdjClamp]
    norm_num

/-- Helper: filtering for an id from a list already filtered against that
id yields nothing. -/
theorem filter_eq_filter_ne_nil (cid : Nat) (l : List (Nat × Nat)) :
    (l.filter (fun p => p.1 ≠ cid)).filter (fun p => p.1 = cid) = [] := by
  induction l with
  | nil => rfl
  | cons a tl ih =>
      by_cases hc : a.1 = cid <;> simp [List.filter_cons, hc, ih]

/-- Claim C9.  Arming an already-armed timer cancels the prior pending
fire before scheduling the new one (no source for the old connection
survives), so a timer never has two fires pending; and on both backends,
arming twice in succession from a fresh state leaves exactly one pending
fire, and advancing time to the second deadline invokes `onTimeout`
exactly once, after which nothing remains pending (the timer is disarmed). -/
theorem C9_timer_single_shot (n0 d1 n1 d2 : Nat) (id0 : Nat)
    (t : TimerImplGtk) (cid : Nat) (s : GlibState)
    (h : t.connection = some cid) (hfresh : cid < s.nextId) :
    ((t.WindUp n1 d2 s).2).sources.filter (fun p => p.1 = cid) = [] ∧
    (TimerImplGtk.WindUp (TimerImplGtk.WindUp ⟨none⟩ n0 d1 glibEmpty).1 n1 d2
        (TimerImplGtk.WindUp ⟨none⟩ n0 d1 glibEmpty).2).2.sources = [(1, n1 + d2)] ∧
    glibFireDue (n1 + d2)
        (TimerImplGtk.WindUp (TimerImplGtk.WindUp ⟨none⟩ n0 d1 glibEmpty).1 n1 d2
          (TimerImplGtk.WindUp ⟨none⟩ n0 d1 glibEmpty).2).2 = (⟨2, []⟩, 1) ∧
    win32WindUp id0 n1 d2 (win32WindUp id0 n0 d1 []) = [(id0, n1 + d2)] ∧
    win32FireDue (n1 + d2) (win32WindUp id0 n1 d2 (win32WindUp id0 n0 d1 [])) = ([], 1) := by
  have hne : s.nextId ≠ cid := by omega
  refine ⟨?_, ?_, ?_, ?_, ?_⟩
  · simp [TimerImplGtk.WindUp, h, glibDisconnect, glibTimeoutConnect,
          List.filter_append, filter_eq_filter_ne_nil, hne]
  · simp [TimerImplGtk.WindUp, glibEmpty, glibDisconnect, glibTimeoutConnect]
  · simp [TimerImplGtk.WindUp, glibEmpty, glibDisconnect, glibTimeoutConnect, glibFireDue]
  · simp [win32WindUp, win32SetTimer]
  · simp [win32WindUp, win32SetTimer, win32FireDue]

/-- Witness for `C9_timer_single_shot` at a concrete armed timer and
scheduler. -/
theorem C9_timer_single_shot_witness :
    (⟨some 0⟩ : TimerImplGtk).connection = some 0 ∧ (0 : Nat) < 1 ∧
    (((TimerImplGtk.WindUp ⟨some 0⟩ 3 4 ⟨1, [(0, 5)]⟩).2).sources.filter
        (fun p => p.1 = 0) = [] ∧
     (TimerImplGtk.WindUp (TimerImplGtk.WindUp ⟨none⟩ 1 2 glibEmpty).1 3 4
        (TimerImplGtk.WindUp ⟨none⟩ 1 2 glibEmpty).2).2.sources = [(1, 3 + 4)] ∧
     glibFireDue (3 + 4)
        (TimerImplGtk.WindUp (TimerImplGtk.WindUp ⟨none⟩ 1 2 glibEmpty).1 3 4
          (TimerImplGtk.WindUp ⟨none⟩ 1 2 glibEmpty).2).2 = (⟨2, []⟩, 1) ∧
     win32WindUp 7 3 4 (win32WindUp 7 1 2 []) = [(7, 3 + 4)] ∧
     win32FireDue (3 + 4) (win32WindUp 7 3 4 (win32WindUp 7 1 2 [])) = ([], 1)) :=
  ⟨rfl, by decide,
   C9_timer_single_shot 1 2 3 4 7 ⟨some 0⟩ 0 ⟨1, [(0, 5)]⟩ rfl (by decide)⟩

/-- Helper: a sequence of scrollbar operations that never contains
`SetScrollbarVisible(true)` leaves an invisible scrollbar invisible. -/
theorem applyScrollOps_stays_hidden (ops : List ScrollOp) (w : Win32WindowScroll)
    (hw : w.scrollbarVisible = false)
    (h : ∀ op ∈ ops, op ≠ ScrollOp.setVisible true) :
    (applyScrollOps w ops).scrollbarVisible = false := by
  induction ops generalizing w with
  | nil => exact hw
  | cons op tl ih =>
      apply ih
      · cases op with
        | setVisible b =>
            cases b with
            | false => simp [applyScrollOp, win32SetScrollbarVisible]
            | true  => exact absurd rfl (h _ (List.mem_cons_self _ _))
        | configure a b c =>
            simpa [applyScrollOp, win32ConfigureScrollbar] using hw
        | setPos p =>
            simpa [applyScrollOp, win32SetScrollbarPosition, hostSetScrollPos] using hw
      · intro o ho
        exact h o (List.mem_cons_of_mem _ ho)

/-- Claim C10.  On the Win32 backend, after any sequence of scrollbar
operations on a fresh window that never calls `SetScrollbarVisible(true)`,
`GetScrollbarPosition()` returns 0.0 regardless of positions set; and
whenever the scrollbar is visible the getter reports the stored
fixed-point position divided by 65536. -/
theorem C10_scrollbar_visibility (ops : List ScrollOp)
    (h : ∀ op ∈ ops, op ≠ ScrollOp.setVisible true)
    (w : Win32WindowScroll) (hv : w.scrollbarVisible = true) :
    win32GetScrollbarPosition (applyScrollOps win32FreshScroll ops) = 0 ∧
    win32GetScrollbarPosition w = (w.si.nPos : ℚ) / 65536 := by
  constructor
  · have hh := applyScrollOps_stays_hidden ops win32FreshScroll rfl h
    simp [win32GetScrollbarPosition, hh]
  · simp [win32GetScrollbarPosition, hv]

/-- Witness for `C10_scrollbar_visibility`: a configure-and-set sequence on
a hidden scrollbar still reads 0.0, while a visible scrollbar holding
fixed-point 327680 reads 5.0 worth of raw units divided out. -/
theorem C10_scrollbar_visibility_witness :
    (∀ op ∈ [ScrollOp.configure 0 10 2, ScrollOp.setPos 5],
        op ≠ ScrollOp.setVisible true) ∧
    (⟨true, ⟨0, 0, 0, 327680⟩⟩ : Win32WindowScroll).scrollbarVisible = true ∧
    (win32GetScrollbarPosition
        (applyScrollOps win32FreshScroll [ScrollOp.configure 0 10 2, ScrollOp.setPos 5]) = 0 ∧
     win32GetScrollbarPosition (⟨true, ⟨0, 0, 0, 327680⟩⟩ : Win32WindowScroll) =
       (((⟨true, ⟨0, 0, 0, 327680⟩⟩ : Win32WindowScroll).si.nPos : ℚ)) / 65536) :=
  ⟨by simp, rfl,
   C10_scrollbar_visibility [ScrollOp.configure 0 10 2, ScrollOp.setPos 5] (by simp)
     ⟨true, ⟨0, 0, 0, 327680⟩⟩ rfl⟩

end SSGui
